import Mathlib

/-!
Shallow embedding of `src/firmware/Photon/hotdog-photon.ino`.

C `double` values are modelled as exact rationals; the C cast `(int)x` on a
`double` truncates toward zero; C integer division (`long`) also truncates
toward zero (`Int.tdiv`).  The firmware's global scalars become fields of an
explicit `DeviceState`, one iteration of `loop()` becomes the state-transition
function `loopTick`, and the subscribed-event callback becomes
`myAlertHandler`.  Externally visible effects (Particle.publish calls, the
HTTP POST, the RGB LED write) are collected as a list of `Event` values.
-/

/-- Truncation toward zero of a rational, modelling the C cast `(int)x`
applied to a `double`.  For negative arguments this is the ceiling, written
here through the floor of the negation. -/
def cIntOfRat (q : ℚ) : Int := if q < 0 then -⌊-q⌋ else ⌊q⌋

/-- Arduino integer `map(x, inMin, inMax, outMin, outMax)`:
`(x - inMin) * (outMax - outMin) / (inMax - inMin) + outMin` computed on
`long` with C truncating division. -/
def arduinoMap (x inMin inMax outMin outMax : Int) : Int :=
  Int.tdiv ((x - inMin) * (outMax - outMin)) (inMax - inMin) + outMin

/-- `#define OVERRIDE_DURATION 1800000` (30 minutes in milliseconds). -/
def OVERRIDE_DURATION : Int := 1800000

/-- Global `int maxHighTemp = 90` (top value in range of temperatures);
never reassigned anywhere in the sketch. -/
def maxHighTemp : Int := 90

/-- Global `int minLowTemp = 60` (bottom value in range of temperatures);
never reassigned anywhere in the sketch. -/
def minLowTemp : Int := 60

/-- `getSensorHumidity()`: the humidity stub, `return (double)0.80;`. -/
def getSensorHumidity : ℚ := 4/5

/-- `calculateHeatIndex(pTemperature, pHumidity)`: the nine-term Rothfusz
regression polynomial exactly as in the source, including the truncation of
the temperature to `int` (clamped below by 0) and the clamping of the
humidity below by 0. -/
def calculateHeatIndex (pTemperature pHumidity : ℚ) : ℚ :=
  let T : ℚ := (max (cIntOfRat pTemperature) 0 : Int)
  let T2 : ℚ := T * T
  let R : ℚ := max pHumidity 0
  let R2 : ℚ := R * R
  let c1 : ℚ := -42379/1000
  let c2 : ℚ := 204901523/100000000
  let c3 : ℚ := 1014333127/100000000
  let c4 : ℚ := -22475541/100000000
  let c5 : ℚ := -683783/100000000
  let c6 : ℚ := -5481717/100000000
  let c7 : ℚ := 122874/100000000
  let c8 : ℚ := 85282/100000000
  let c9 : ℚ := -199/100000000
  c1 + c2 * T + c3 * R + c4 * T * R + c5 * T2 + c6 * R2 + c7 * T2 * R
    + c8 * T * R2 + c9 * T2 * R2

/-- The if/else chain at the top of `evaluateHeatIndex`: the new value of
`alertCondition` together with the classification label written into
`alertClassification` (the `sprintf` also embeds the numeric heat index,
which is carried separately below). -/
def heatClass (pHeatIndex : ℚ) : Int × String :=
  if 130 ≤ pHeatIndex then (1, "ExtremelyHot")
  else if 105 ≤ pHeatIndex then (1, "VeryHot")
  else if 90 ≤ pHeatIndex then (1, "Hot")
  else if 80 ≤ pHeatIndex then (0, "VeryWarm")
  else (0, "Moderate")

/-- `evaluateHeatIndex(pHeatIndex)` acting on the global `alertCondition`:
returns the new `alertCondition`, the published alert notification (label
and numeric value) if any, and the function's `int` return value.  The
publish guard is the source's `alertCondition==1 && alertCondition!=savAlertCondition`. -/
def evaluateHeatIndex (savAlertCondition : Int) (pHeatIndex : ℚ) :
    Int × Option (String × ℚ) × Int :=
  let c := heatClass pHeatIndex
  if c.1 = 1 ∧ c.1 ≠ savAlertCondition then (c.1, some (c.2, pHeatIndex), 1)
  else (c.1, none, 0)

/-- `updateRedLEDValue(pTemperature)` reading the global `overrideAlert`
(passed here as a parameter): 255 when overridden or at/above
`maxHighTemp`, 0 at/below `minLowTemp`, otherwise the Arduino `map` onto
0..255.  C truthiness of `overrideAlert` is `overrideAlert ≠ 0`. -/
def updateRedLEDValue (overrideAlert : Int) (pTemperature : ℚ) : Int :=
  let tempInt := cIntOfRat pTemperature
  if overrideAlert ≠ 0 ∨ maxHighTemp ≤ tempInt then 255
  else if tempInt ≤ minLowTemp then 0
  else arduinoMap tempInt minLowTemp maxHighTemp 0 255

/-- `updateBlueLEDValue(pTemperature)`: `255 - updateRedLEDValue(pTemperature)`. -/
def updateBlueLEDValue (overrideAlert : Int) (pTemperature : ℚ) : Int :=
  255 - updateRedLEDValue overrideAlert pTemperature

/-- `getPublishRate(pTemperature)` reading the global `overrideAlert`:
default 5 seconds; when not overridden, 10 minutes below 60, 1 minute
below 80, 30 seconds below 90 (on the value truncated to `int`). -/
def getPublishRate (overrideAlert : Int) (pTemperature : ℚ) : Int :=
  let tempInt := cIntOfRat pTemperature
  if overrideAlert = 0 then
    if tempInt < 60 then 600000
    else if tempInt < 80 then 60000
    else if tempInt < 90 then 30000
    else 5000
  else 5000

/-- Externally visible effects of one loop iteration. -/
inductive Event where
  | alertPublish (label : String) (value : ℚ)
  | ledUpdate (red blue bright : Int)
  | tempPublish (value : ℚ)
  | heatIndexPublish (value : ℚ)
  | httpPost (value : ℚ)

/-- `publishTemp(pTemperature, pHeatIndex)`: publishes the two readings and
issues the HTTP POST only when `(int)pTemperature > 0`, yet returns
`millis()` (the `now` argument) unconditionally. -/
def publishTemp (pTemperature pHeatIndex : ℚ) (now : Int) : Int × List Event :=
  (now,
   if 0 < cIntOfRat pTemperature then
     [Event.tempPublish pTemperature, Event.heatIndexPublish pHeatIndex,
      Event.httpPost pTemperature]
   else [])

/-- The firmware's global mutable scalars. -/
structure DeviceState where
  currentTemperature : ℚ
  currentHumidity : ℚ
  currentHeatIndex : ℚ
  lastPublish : Int
  alertCondition : Int
  overrideAlert : Int

/-- Global-variable initial values at boot. -/
def initialState : DeviceState :=
  { currentTemperature := 0
    currentHumidity := 0
    currentHeatIndex := 0
    lastPublish := 0
    alertCondition := 0
    overrideAlert := 0 }

/-- One iteration of `loop()`.  `sensorTemp` is the value returned by
`getSensorTemp()` this tick; `m1`, `m2`, `m3` are the values returned by the
three successive `millis()` calls (publish check, `publishTemp` return,
override-expiry check). -/
def loopTick (s : DeviceState) (sensorTemp : ℚ) (m1 m2 m3 : Int) :
    DeviceState × List Event :=
  let currentTemperature := sensorTemp
  let currentHumidity := getSensorHumidity
  let currentHeatIndex := calculateHeatIndex currentTemperature currentHumidity
  let evalRes :=
    if 0 < currentTemperature then
      let e := evaluateHeatIndex s.alertCondition currentHeatIndex
      let adjustedRed := updateRedLEDValue s.overrideAlert currentHeatIndex
      let adjustedBlue := updateBlueLEDValue s.overrideAlert currentHeatIndex
      let brightVal := max adjustedRed adjustedBlue
      (e.1,
       (match e.2.1 with
        | some lv => [Event.alertPublish lv.1 lv.2]
        | none => []) ++ [Event.ledUpdate adjustedRed adjustedBlue brightVal])
    else (s.alertCondition, ([] : List Event))
  let pubRes :=
    if getPublishRate s.overrideAlert currentHeatIndex < m1 - s.lastPublish then
      publishTemp currentTemperature currentHeatIndex m2
    else (s.lastPublish, ([] : List Event))
  let overrideAlert1 :=
    if OVERRIDE_DURATION < m3 - s.overrideAlert then 0 else s.overrideAlert
  ({ currentTemperature := currentTemperature
     currentHumidity := currentHumidity
     currentHeatIndex := currentHeatIndex
     lastPublish := pubRes.1
     alertCondition := evalRes.1
     overrideAlert := overrideAlert1 },
   evalRes.2 ++ pubRes.2)

/-- `myAlertHandler(eventName, eventData)`: when the payload contains both
the substring `heat` and the substring `advisory` (the source's
`indexOf(...) >= 0` checks), set `alertCondition = 1`; otherwise no state
changes.  The event name is only printed to the serial console. -/
def myAlertHandler (s : DeviceState) (_eventName eventData : String) :
    DeviceState :=
  if ("heat".data <:+: eventData.data) ∧ ("advisory".data <:+: eventData.data) then
    { s with alertCondition := 1 }
  else s

/-- States reachable from boot under any interleaving of loop iterations
(arbitrary sensor readings and clock values) and subscribed-event
deliveries (arbitrary payloads). -/
inductive Reachable : DeviceState → Prop where
  | boot : Reachable initialState
  | tick : ∀ s t m1 m2 m3, Reachable s → Reachable (loopTick s t m1 m2 m3).1
  | subscribedEvent : ∀ s n d, Reachable s → Reachable (myAlertHandler s n d)

lemma cIntOfRat_mono {q1 q2 : ℚ} (h : q1 ≤ q2) : cIntOfRat q1 ≤ cIntOfRat q2 := by
  unfold cIntOfRat
  split_ifs with h1 h2
  · exact neg_le_neg (Int.floor_mono (neg_le_neg h))
  · have ha : (0:Int) ≤ ⌊-q1⌋ := Int.floor_nonneg.mpr (by linarith)
    have hb : (0:Int) ≤ ⌊q2⌋ := Int.floor_nonneg.mpr (not_lt.mp h2)
    omega
  · exact absurd (lt_of_le_of_lt h (by assumption)) (by assumption)
  · exact Int.floor_mono h

lemma cIntOfRat_lt_iff {q : ℚ} {n : Int} (hn : 0 < n) :
    cIntOfRat q < n ↔ q < (n : ℚ) := by
  unfold cIntOfRat
  split_ifs with hq
  · constructor
    · intro _
      exact hq.trans_le (by exact_mod_cast hn.le)
    · intro _
      have ha : (0:Int) ≤ ⌊-q⌋ := Int.floor_nonneg.mpr (by linarith)
      omega
  · exact Int.floor_lt

lemma cIntOfRat_nonpos {q : ℚ} (h : q ≤ 0) : cIntOfRat q ≤ 0 := by
  unfold cIntOfRat
  split_ifs with hq
  · have ha : (0:Int) ≤ ⌊-q⌋ := Int.floor_nonneg.mpr (by linarith)
    omega
  · have hq0 : q = 0 := le_antisymm h (not_lt.mp hq)
    simp [hq0]

lemma heatClass_fst (h : ℚ) :
    (heatClass h).1 = if 90 ≤ h then 1 else 0 := by
  unfold heatClass
  split_ifs <;> first | rfl | linarith

lemma evaluateHeatIndex_fst (a : Int) (h : ℚ) :
    (evaluateHeatIndex a h).1 = (heatClass h).1 := by
  simp only [evaluateHeatIndex]
  split_ifs <;> rfl

/-- C1: `evaluateHeatIndex` classifies every heat-index value into exactly
one of five ordered bands (`ExtremelyHot` at 130 and above, `VeryHot` on
[105,130), `Hot` on [90,105), `VeryWarm` on [80,90), `Moderate` below 80);
the top three bands set the alert flag, the bottom two clear it; a
notification carrying the band label and numeric value is published exactly
when the flag was clear on entry and this call sets it; and the return
value is 1 exactly when a notification was published. -/
theorem claim_C1_evaluateHeatIndex_bands (h : ℚ) (a : Int) (ha : a = 0 ∨ a = 1) :
    ((130 ≤ h → heatClass h = (1, "ExtremelyHot"))
      ∧ (105 ≤ h → h < 130 → heatClass h = (1, "VeryHot"))
      ∧ (90 ≤ h → h < 105 → heatClass h = (1, "Hot"))
      ∧ (80 ≤ h → h < 90 → heatClass h = (0, "VeryWarm"))
      ∧ (h < 80 → heatClass h = (0, "Moderate")))
    ∧ ((heatClass h).1 = 1 ↔ 90 ≤ h)
    ∧ (evaluateHeatIndex a h).1 = (heatClass h).1
    ∧ ((evaluateHeatIndex a h).2.1 = some ((heatClass h).2, h)
        ↔ (a = 0 ∧ (heatClass h).1 = 1))
    ∧ ((evaluateHeatIndex a h).2.1 ≠ none
        → (evaluateHeatIndex a h).2.1 = some ((heatClass h).2, h))
    ∧ ((evaluateHeatIndex a h).2.2 = 1 ↔ (evaluateHeatIndex a h).2.1 ≠ none)
    ∧ ((evaluateHeatIndex a h).2.2 = 1 ∨ (evaluateHeatIndex a h).2.2 = 0) := by
  have hfst := heatClass_fst h
  refine ⟨⟨?_, ?_, ?_, ?_, ?_⟩, ?_, evaluateHeatIndex_fst a h, ?_, ?_, ?_, ?_⟩
  · intro h1; unfold heatClass; split_ifs <;> first | rfl | linarith
  · intro h1 h2; unfold heatClass; split_ifs <;> first | rfl | linarith
  · intro h1 h2; unfold heatClass; split_ifs <;> first | rfl | linarith
  · intro h1 h2; unfold heatClass; split_ifs <;> first | rfl | linarith
  · intro h1; unfold heatClass; split_ifs <;> first | rfl | linarith
  · rw [hfst]; split_ifs with hh
    · simp [hh]
    · simp [hh]
  · simp only [evaluateHeatIndex]
    rcases ha with rfl | rfl <;> rw [hfst] <;> split_ifs <;> simp_all
  · simp only [evaluateHeatIndex]
    split_ifs <;> simp
  · simp only [evaluateHeatIndex]
    split_ifs <;> simp
  · simp only [evaluateHeatIndex]
    split_ifs <;> simp

/-- Witness for C1 at heat index 100 with the flag clear on entry: the call
publishes the `Hot` notification carrying the value 100. -/
theorem claim_C1_witness :
    (evaluateHeatIndex 0 (100:ℚ)).2.1 = some ("Hot", (100:ℚ)) := by
  have hthm := claim_C1_evaluateHeatIndex_bands 100 0 (Or.inl rfl)
  have h2 := hthm.2.2.2.1.mpr ⟨rfl, hthm.2.1.mpr (by norm_num)⟩
  have h3 : heatClass (100:ℚ) = (1, "Hot") :=
    hthm.1.2.2.1 (by norm_num) (by norm_num)
  rw [h2, h3]

lemma updateBlue_eq (o : Int) (t : ℚ) :
    updateBlueLEDValue o t = 255 - updateRedLEDValue o t := rfl

/-- C3: with no override, the indicator mapping clamps to (255, 0) at or
above `maxHighTemp` and to (0, 255) at or below `minLowTemp` (on the value
truncated to `int`); strictly between the bounds the red channel is the
Arduino linear map of the truncated value from [`minLowTemp`, `maxHighTemp`]
onto [0, 255] and red + blue = 255 exactly; with an override active the
mapping returns (255, 0) regardless of the input. -/
theorem claim_C3_led_mapping (t : ℚ) :
    (maxHighTemp ≤ cIntOfRat t →
        updateRedLEDValue 0 t = 255 ∧ updateBlueLEDValue 0 t = 0)
    ∧ (cIntOfRat t ≤ minLowTemp →
        updateRedLEDValue 0 t = 0 ∧ updateBlueLEDValue 0 t = 255)
    ∧ (minLowTemp < cIntOfRat t → cIntOfRat t < maxHighTemp →
        updateRedLEDValue 0 t = arduinoMap (cIntOfRat t) minLowTemp maxHighTemp 0 255
          ∧ updateRedLEDValue 0 t + updateBlueLEDValue 0 t = 255)
    ∧ (∀ o : Int, o ≠ 0 →
        updateRedLEDValue o t = 255 ∧ updateBlueLEDValue o t = 0) := by
  refine ⟨?_, ?_, ?_, ?_⟩
  · intro hhi
    simp only [updateBlue_eq, updateRedLEDValue, maxHighTemp, minLowTemp] at *
    split_ifs <;> omega
  · intro hlo
    simp only [updateBlue_eq, updateRedLEDValue, maxHighTemp, minLowTemp] at *
    split_ifs <;> omega
  · intro h1 h2
    simp only [updateBlue_eq, updateRedLEDValue, maxHighTemp, minLowTemp] at *
    split_ifs <;> first | exact ⟨rfl, by omega⟩ | omega
  · intro o ho
    simp only [updateBlue_eq, updateRedLEDValue, maxHighTemp, minLowTemp] at *
    split_ifs with hc h2 <;> first | omega | exact absurd (Or.inl ho) hc

/-- Witness for C3 at temperatures 95 (clamped hot extreme) and 75 (interior
of the linear range). -/
theorem claim_C3_witness :
    (updateRedLEDValue 0 (95:ℚ) = 255 ∧ updateBlueLEDValue 0 (95:ℚ) = 0)
    ∧ (updateRedLEDValue 0 (75:ℚ)
        = arduinoMap (cIntOfRat (75:ℚ)) minLowTemp maxHighTemp 0 255
      ∧ updateRedLEDValue 0 (75:ℚ) + updateBlueLEDValue 0 (75:ℚ) = 255) := by
  have h95 : cIntOfRat (95:ℚ) = 95 := by unfold cIntOfRat; norm_num
  have h75 : cIntOfRat (75:ℚ) = 75 := by unfold cIntOfRat; norm_num
  refine ⟨(claim_C3_led_mapping 95).1 ?_, (claim_C3_led_mapping 75).2.2.1 ?_ ?_⟩
  · rw [h95]; unfold maxHighTemp; norm_num
  · rw [h75]; unfold minLowTemp; norm_num
  · rw [h75]; unfold maxHighTemp; norm_num

lemma getPublishRate_zero (h : ℚ) :
    getPublishRate 0 h =
      if h < 60 then 600000 else if h < 80 then 60000
      else if h < 90 then 30000 else 5000 := by
  have h60 : cIntOfRat h < 60 ↔ h < 60 := by
    simpa using @cIntOfRat_lt_iff h 60 (by norm_num)
  have h80 : cIntOfRat h < 80 ↔ h < 80 := by
    simpa using @cIntOfRat_lt_iff h 80 (by norm_num)
  have h90 : cIntOfRat h < 90 ↔ h < 90 := by
    simpa using @cIntOfRat_lt_iff h 90 (by norm_num)
  simp only [getPublishRate, h60, h80, h90]
  norm_num

/-- C6: the publish interval is monotonically non-increasing in the heat
index (10 minutes below 60, 1 minute on [60,80), 30 seconds on [80,90),
5 seconds at 90 and above), and with an override active it is the fixed
5-second interval regardless of the heat index. -/
theorem claim_C6_publish_rate :
    (∀ h1 h2 : ℚ, h1 ≤ h2 → getPublishRate 0 h2 ≤ getPublishRate 0 h1)
    ∧ (∀ h : ℚ, h < 60 → getPublishRate 0 h = 600000)
    ∧ (∀ h : ℚ, 60 ≤ h → h < 80 → getPublishRate 0 h = 60000)
    ∧ (∀ h : ℚ, 80 ≤ h → h < 90 → getPublishRate 0 h = 30000)
    ∧ (∀ h : ℚ, 90 ≤ h → getPublishRate 0 h = 5000)
    ∧ (∀ (o : Int) (h : ℚ), o ≠ 0 → getPublishRate o h = 5000) := by
  refine ⟨?_, ?_, ?_, ?_, ?_, ?_⟩
  · intro h1 h2 hle
    rw [getPublishRate_zero, getPublishRate_zero]
    split_ifs <;> linarith
  · intro h hh
    rw [getPublishRate_zero]
    split_ifs <;> first | rfl | linarith
  · intro h hh1 hh2
    rw [getPublishRate_zero]
    split_ifs <;> first | rfl | linarith
  · intro h hh1 hh2
    rw [getPublishRate_zero]
    split_ifs <;> first | rfl | linarith
  · intro h hh
    rw [getPublishRate_zero]
    split_ifs <;> first | rfl | linarith
  · intro o h ho
    unfold getPublishRate
    rw [if_neg ho]

/-- Witness for C6: a cool reading (50) gets the 10-minute interval, which
dominates the interval of a warmer reading (85); an override forces the
5-second interval even for a cool reading. -/
theorem claim_C6_witness :
    getPublishRate 0 (85:ℚ) ≤ getPublishRate 0 (50:ℚ)
    ∧ getPublishRate 0 (50:ℚ) = 600000
    ∧ getPublishRate 0 (85:ℚ) = 30000
    ∧ getPublishRate 1 (50:ℚ) = 5000 := by
  refine ⟨claim_C6_publish_rate.1 50 85 (by norm_num),
    claim_C6_publish_rate.2.1 50 (by norm_num),
    claim_C6_publish_rate.2.2.2.1 85 (by norm_num) (by norm_num),
    claim_C6_publish_rate.2.2.2.2.2 1 50 (by norm_num)⟩

/-- C10: for every subscribed event, if the payload contains both the
substring `heat` and the substring `advisory`, the handler sets the alert
flag (and changes nothing else); otherwise it leaves the state untouched. -/
theorem claim_C10_alert_handler (s : DeviceState) (n d : String) :
    (("heat".data <:+: d.data) ∧ ("advisory".data <:+: d.data) →
        myAlertHandler s n d = { s with alertCondition := 1 })
    ∧ (¬ (("heat".data <:+: d.data) ∧ ("advisory".data <:+: d.data)) →
        myAlertHandler s n d = s) := by
  constructor
  · intro hcond
    unfold myAlertHandler
    rw [if_pos hcond]
  · intro hcond
    unfold myAlertHandler
    rw [if_neg hcond]

/-- Witness for C10: a payload carrying both marker substrings forces the
alert flag; an unrelated payload leaves the state unchanged. -/
theorem claim_C10_witness :
    myAlertHandler initialState "hotdog/alert" "national heat advisory issued"
      = { initialState with alertCondition := 1 }
    ∧ myAlertHandler initialState "hotdog/alert" "all clear" = initialState := by
  exact ⟨(claim_C10_alert_handler initialState "hotdog/alert"
            "national heat advisory issued").1 ⟨by decide, by decide⟩,
         (claim_C10_alert_handler initialState "hotdog/alert" "all clear").2
            (by decide)⟩

/-- C8: in every reachable state the override flag `overrideAlert` equals 0;
no operation ever assigns it a nonzero value. -/
theorem claim_C8_override_invariant (s : DeviceState) (hs : Reachable s) :
    s.overrideAlert = 0 := by
  induction hs with
  | boot => rfl
  | tick s t m1 m2 m3 hr ih =>
      simp only [loopTick]
      split_ifs <;> simp [ih]
  | subscribedEvent s n d hr ih =>
      unfold myAlertHandler
      split_ifs <;> simp [ih]

/-- Witness for C8 at the boot state. -/
theorem claim_C8_witness : initialState.overrideAlert = 0 :=
  claim_C8_override_invariant initialState Reachable.boot

/-- C7 evaluation at the failing input: the subscribed-event handler, on a
payload that carries both marker substrings, raises `alertCondition` but
leaves `overrideAlert` untouched — no override is ever armed, so the
30-minute auto-clear in `loop()` never has anything to clear. -/
theorem claim_C7_no_override_armed :
    (myAlertHandler initialState "hotdog/alert" "heat advisory").overrideAlert
      = initialState.overrideAlert
    ∧ (myAlertHandler initialState "hotdog/alert" "heat advisory").alertCondition
      = 1 := by
  refine ⟨?_, ?_⟩ <;>
  · unfold myAlertHandler
    rw [if_pos ⟨by decide, by decide⟩]

lemma hi_at_95 : calculateHeatIndex 95 (4/5) = 113095077479/1250000000 := by
  unfold calculateHeatIndex cIntOfRat
  norm_num

/-- C2 evaluation at the failing input (temperature 95 °F, humidity 0.80 as
produced by the stub): the heat index the code computes is exactly
113095077479/1250000000 ≈ 90.476, far from the claimed ≈ 133.73; it falls
in the `Hot` band (not `ExtremelyHot`), and with the flag clear on entry a
single `Hot` notification is published.  Feeding the humidity as a percent
(80, as the Rothfusz regression expects) would give ≈ 133.78, the value the
claim describes. -/
theorem claim_C2_heat_index_bug :
    calculateHeatIndex 95 (4/5) = 113095077479/1250000000
    ∧ calculateHeatIndex 95 (4/5) < 105
    ∧ (90:ℚ) ≤ calculateHeatIndex 95 (4/5)
    ∧ evaluateHeatIndex 0 (calculateHeatIndex 95 (4/5))
        = (1, some ("Hot", calculateHeatIndex 95 (4/5)), 1)
    ∧ calculateHeatIndex 95 80 = 1337839687/10000000 := by
  refine ⟨hi_at_95, ?_, ?_, ?_, ?_⟩
  · rw [hi_at_95]; norm_num
  · rw [hi_at_95]; norm_num
  · rw [hi_at_95]
    simp only [evaluateHeatIndex, heatClass]
    norm_num
  · unfold calculateHeatIndex cIntOfRat
    norm_num

lemma hi_at_0 : calculateHeatIndex 0 (4/5) = -21437136233/625000000 := by
  unfold calculateHeatIndex cIntOfRat
  norm_num

lemma hum_eq : getSensorHumidity = 4/5 := rfl

/-- C4 counterexample: a tick with a non-positive temperature reading (0)
whose publish interval has elapsed.  Nothing is published (no event, no
HTTP POST, the alert flag stays clear), yet `lastPublish` is overwritten
with the current time, because `publishTemp` returns `millis()` even when
it skips the report. -/
theorem claim_C4_counterexample :
    (loopTick initialState 0 600001 600002 0).1.lastPublish = 600002
    ∧ initialState.lastPublish = 0
    ∧ (loopTick initialState 0 600001 600002 0).2 = [] := by
  have hrate : getPublishRate 0 (-21437136233/625000000 : ℚ) = 600000 := by
    rw [getPublishRate_zero]
    norm_num
  have htr : ¬ (0:Int) < cIntOfRat (0:ℚ) := by
    unfold cIntOfRat
    norm_num
  simp only [loopTick, initialState, hum_eq, hi_at_0, publishTemp, hrate,
    if_neg htr]
  norm_num

/-- C4 amended: on every tick whose temperature reading is non-positive the
indicator and evaluator logic are skipped, no event publish or HTTP POST
occurs and the alert flag is unchanged, but `lastPublish` is still
overwritten with the current time whenever the elapsed-time check passes. -/
theorem claim_C4_amended (s : DeviceState) (t : ℚ) (m1 m2 m3 : Int)
    (ht : t ≤ 0) :
    (loopTick s t m1 m2 m3).2 = []
    ∧ (loopTick s t m1 m2 m3).1.alertCondition = s.alertCondition
    ∧ (loopTick s t m1 m2 m3).1.lastPublish
        = (if getPublishRate s.overrideAlert (calculateHeatIndex t getSensorHumidity)
              < m1 - s.lastPublish then m2 else s.lastPublish) := by
  have hskip : ¬ (0:ℚ) < t := not_lt.mpr ht
  have htr : ¬ (0:Int) < cIntOfRat t := not_lt.mpr (cIntOfRat_nonpos ht)
  simp only [loopTick, publishTemp, if_neg hskip, if_neg htr]
  split_ifs <;> simp

/-- Witness for C4 amended at temperature −5 with the interval not yet
elapsed: no events, flag unchanged, `lastPublish` unchanged. -/
theorem claim_C4_witness :
    (loopTick initialState (-5) 0 1 2).2 = []
    ∧ (loopTick initialState (-5) 0 1 2).1.alertCondition = 0 := by
  have h := claim_C4_amended initialState (-5) 0 1 2 (by norm_num)
  exact ⟨h.1, h.2.1⟩

lemma hi_at_65 : calculateHeatIndex 65 (4/5) = 39057935287/625000000 := by
  unfold calculateHeatIndex cIntOfRat
  norm_num

lemma tick65_events :
    (loopTick initialState 65 0 0 0).2 = [Event.ledUpdate 17 238 238] := by
  have htr : cIntOfRat (39057935287/625000000 : ℚ) = 62 := by
    unfold cIntOfRat
    norm_num
  have hred : updateRedLEDValue 0 (39057935287/625000000 : ℚ) = 17 := by
    simp only [updateRedLEDValue, htr, maxHighTemp, minLowTemp, arduinoMap]
    norm_num
    decide
  have hrate : getPublishRate 0 (39057935287/625000000 : ℚ) = 60000 := by
    rw [getPublishRate_zero]
    norm_num
  have heval : evaluateHeatIndex 0 (39057935287/625000000 : ℚ) = (0, none, 0) := by
    simp only [evaluateHeatIndex, heatClass]
    norm_num
  simp only [loopTick, initialState, hum_eq, hi_at_65, updateBlue_eq, hred,
    heval, hrate, publishTemp]
  norm_num

/-- C9 counterexample: on the tick whose temperature reading is 65 °F the
indicator pipeline is fed the computed heat index (≈ 62.49, truncating to
62), not the raw temperature, so it produces red 17, blue 238, brightness
238 — not the claimed red 42, blue 213, brightness 213. -/
theorem claim_C9_counterexample :
    (loopTick initialState 65 0 0 0).2 = [Event.ledUpdate 17 238 238]
    ∧ (loopTick initialState 65 0 0 0).2 ≠ [Event.ledUpdate 42 213 213] := by
  refine ⟨tick65_events, ?_⟩
  rw [tick65_events]
  intro hcontra
  simp only [List.cons.injEq, Event.ledUpdate.injEq] at hcontra
  omega

/-- C9 amended: on a loop tick where the temperature reading is 65 °F the
indicator pipeline maps the computed heat index (exactly
39057935287/625000000 ≈ 62.49, truncated to 62): red channel
`map(62, 60, 90, 0, 255) = 17`, blue channel 238, overall brightness
`max(17, 238) = 238`. -/
theorem claim_C9_amended :
    calculateHeatIndex 65 getSensorHumidity = 39057935287/625000000
    ∧ cIntOfRat (39057935287/625000000 : ℚ) = 62
    ∧ arduinoMap 62 minLowTemp maxHighTemp 0 255 = 17
    ∧ (loopTick initialState 65 0 0 0).2
        = [Event.ledUpdate 17 (255 - 17) (max 17 (255 - 17))] := by
  refine ⟨hi_at_65, ?_, ?_, ?_⟩
  · unfold cIntOfRat
    norm_num
  · unfold arduinoMap minLowTemp maxHighTemp
    decide
  · rw [tick65_events]
    norm_num

/-- C5 counterexample: with the flag false, a heat index of 85 — inside the
band at the 80 threshold, entered from below — does not set the alert flag
and publishes nothing: the code's false→true transition happens only at the
90 threshold, not at 80. -/
theorem claim_C5_counterexample :
    (80:ℚ) ≤ 85 ∧ evaluateHeatIndex 0 (85:ℚ) = (0, none, 0) := by
  constructor
  · norm_num
  · simp only [evaluateHeatIndex, heatClass]
    norm_num

/-- `alertCondition` after a sequence of `evaluateHeatIndex` calls. -/
def alertAfter (a : Int) (l : List ℚ) : Int :=
  l.foldl (fun x h => (evaluateHeatIndex x h).1) a

lemma alertAfter_mem : ∀ (l : List ℚ) (a : Int), a = 0 ∨ a = 1 →
    alertAfter a l = 0 ∨ alertAfter a l = 1 := by
  intro l
  induction l with
  | nil => intro a ha; exact ha
  | cons h t ih =>
      intro a ha
      have hstep : (evaluateHeatIndex a h).1 = 0 ∨ (evaluateHeatIndex a h).1 = 1 := by
        rw [evaluateHeatIndex_fst, heatClass_fst]
        split_ifs <;> simp
      simpa only [alertAfter, List.foldl_cons] using ih _ hstep

lemma alertAfter_append_single (a : Int) (l : List ℚ) (h : ℚ) :
    alertAfter a (l ++ [h]) = (evaluateHeatIndex (alertAfter a l) h).1 := by
  simp [alertAfter, List.foldl_append]

lemma evaluateHeatIndex_ret (a : Int) (ha : a = 0 ∨ a = 1) (h : ℚ) :
    (evaluateHeatIndex a h).2.2 = 1 ↔ (90 ≤ h ∧ a = 0) := by
  simp only [evaluateHeatIndex]
  rcases ha with rfl | rfl <;> rw [heatClass_fst] <;> split_ifs <;> simp_all

lemma evaluateHeatIndex_ret01 (a : Int) (h : ℚ) :
    (evaluateHeatIndex a h).2.2 = 1 ∨ (evaluateHeatIndex a h).2.2 = 0 := by
  simp only [evaluateHeatIndex]
  split_ifs <;> simp

/-- C5 amended: over any sequence of `evaluateHeatIndex` calls starting from
a boolean flag, the next call publishes (returns 1) exactly when its heat
index is at or above the 90 threshold and the flag was false after the
previous calls; after a call the flag is set exactly when that call's heat
index was at or above 90 — so the notification fires exactly once per
crossing into a ≥90 band from below, and never again on later calls while
the heat index stays in such a band. -/
theorem claim_C5_edge_triggered (a : Int) (l : List ℚ) (h h2 : ℚ)
    (ha : a = 0 ∨ a = 1) :
    ((evaluateHeatIndex (alertAfter a l) h).2.2 = 1
        ↔ (90 ≤ h ∧ alertAfter a l = 0))
    ∧ (alertAfter a (l ++ [h]) = if 90 ≤ h then 1 else 0)
    ∧ (90 ≤ h → 90 ≤ h2 →
        (evaluateHeatIndex (alertAfter a (l ++ [h])) h2).2.2 = 0) := by
  have hmem := alertAfter_mem l a ha
  refine ⟨evaluateHeatIndex_ret _ hmem h, ?_, ?_⟩
  · rw [alertAfter_append_single, evaluateHeatIndex_fst, heatClass_fst]
  · intro hh hh2
    have h1 : alertAfter a (l ++ [h]) = 1 := by
      rw [alertAfter_append_single, evaluateHeatIndex_fst, heatClass_fst,
        if_pos hh]
    rcases evaluateHeatIndex_ret01 (alertAfter a (l ++ [h])) h2 with he | he
    · exfalso
      have := (evaluateHeatIndex_ret _ (Or.inr h1) h2).mp he
      omega
    · exact he

/-- Witness for C5: after the history [75] from a clear flag, a call at 95
publishes; after the history [75, 95], a further call at 100 (still in a
≥90 band) does not publish again. -/
theorem claim_C5_witness :
    (evaluateHeatIndex (alertAfter 0 [(75:ℚ)]) 95).2.2 = 1
    ∧ (evaluateHeatIndex (alertAfter 0 ([(75:ℚ)] ++ [95])) 100).2.2 = 0 := by
  have h := claim_C5_edge_triggered 0 [75] 95 100 (Or.inl rfl)
  have ha0 : alertAfter 0 [(75:ℚ)] = 0 := by
    simp only [alertAfter, List.foldl_cons, List.foldl_nil]
    rw [evaluateHeatIndex_fst, heatClass_fst]
    norm_num
  exact ⟨h.1.mpr ⟨by norm_num, ha0⟩, h.2.2 (by norm_num) (by norm_num)⟩
